import Mathlib

/-!
Shallow embedding of the `desktop-cube-baby` application core
(`src/main.rs`, `src/components.rs`, `src/resources.rs`, `src/states.rs`)
and proofs about its physics integrator, input handlers, animation update
and loading-state machine.

Machine floats (`f32`/`f64`) are modelled as real numbers; machine
integers (`u32`/`usize`) as naturals and `i32` as integers, with the
source's saturating arithmetic made explicit.
-/

namespace CubeBaby

noncomputable section

/-- The number of frames in the texture atlas animation (`ATLAS_FRAMES`). -/
def ATLAS_FRAMES : Nat := 8

/-- The image scale of the sprite (`SPRITE_SCALE`). -/
def SPRITE_SCALE : ℝ := 2.0

/-- The size of one side of the spawned window (`WINDOW_SIZE`). -/
def WINDOW_SIZE : ℝ := 32.0 * SPRITE_SCALE

/-- The strength that the cube baby is pushed at (`PUSH_STRENGTH`). -/
def PUSH_STRENGTH : ℝ := 16.0

/-- The amount of time in seconds between possible pushes (`PUSH_DELAY`). -/
def PUSH_DELAY : ℝ := 0.25

/-- The amount of drag applied whilst sliding (`SLIDE_DRAG`). -/
def SLIDE_DRAG : ℝ := 0.25

/-- The distance required before updating the sprite (`SLIDE_SPIN_DISTANCE`). -/
def SLIDE_SPIN_DISTANCE : ℝ := 10.0

/-- A two-dimensional float vector (`glam::Vec2`); componentwise `+`, `-` come
from the product instances. -/
abbrev Vec2 : Type := ℝ × ℝ

/-- Componentwise scaling of a vector by a scalar (`Vec2 * f32`). -/
def scale (v : Vec2) (c : ℝ) : Vec2 := (v.1 * c, v.2 * c)

/-- The squared length of a vector (`Vec2::length_squared`, `dot(self, self)`). -/
def lengthSq (v : Vec2) : ℝ := v.1 * v.1 + v.2 * v.2

/-- The length of a vector (`Vec2::length`). -/
def length (v : Vec2) : ℝ := Real.sqrt (lengthSq v)

/-- Normalization that collapses the degenerate case to zero
(`Vec2::normalize_or_zero`): returns `v / length v` when the length is
positive, the zero vector otherwise. -/
def normalizeOrZero (v : Vec2) : Vec2 :=
  if 0 < length v then scale v (length v)⁻¹ else (0, 0)

/-- Distance between two points (`Vec2::distance`, the length of `a - b`). -/
def distance (a b : Vec2) : ℝ := length (a - b)

/-- Rust `f32::clamp(self, lo, hi)`: `min (max self lo) hi`. -/
def clampR (x lo hi : ℝ) : ℝ := min (max x lo) hi

/-- Basic vector lemmas. -/
theorem lengthSq_nonneg (v : Vec2) : 0 ≤ lengthSq v :=
  add_nonneg (mul_self_nonneg _) (mul_self_nonneg _)

theorem length_nonneg (v : Vec2) : 0 ≤ length v := Real.sqrt_nonneg _

theorem lengthSq_eq_zero_iff (v : Vec2) : lengthSq v = 0 ↔ v = (0, 0) := by
  constructor
  · intro h
    rw [lengthSq] at h
    have hx : v.1 = 0 := by nlinarith [mul_self_nonneg v.1, mul_self_nonneg v.2]
    have hy : v.2 = 0 := by nlinarith [mul_self_nonneg v.1, mul_self_nonneg v.2]
    exact Prod.ext hx hy
  · intro h
    rw [h]
    simp [lengthSq]

theorem length_eq_zero_iff (v : Vec2) : length v = 0 ↔ v = (0, 0) := by
  rw [length, Real.sqrt_eq_zero (lengthSq_nonneg v), lengthSq_eq_zero_iff]

theorem length_pos_iff (v : Vec2) : 0 < length v ↔ v ≠ (0, 0) := by
  constructor
  · intro h hv
    rw [← length_eq_zero_iff] at hv
    exact absurd hv (ne_of_gt h)
  · intro h
    rcases lt_or_eq_of_le (length_nonneg v) with h' | h'
    · exact h'
    · exact absurd ((length_eq_zero_iff v).mp h'.symm) h

theorem lengthSq_scale (v : Vec2) (c : ℝ) :
    lengthSq (scale v c) = lengthSq v * (c * c) := by
  simp only [lengthSq, scale]
  ring

theorem length_scale (v : Vec2) (c : ℝ) :
    length (scale v c) = length v * |c| := by
  rw [length, lengthSq_scale, Real.sqrt_mul (lengthSq_nonneg v), ← length,
    Real.sqrt_mul_self_eq_abs]

theorem length_normalizeOrZero (v : Vec2) (h : v ≠ (0, 0)) :
    length (normalizeOrZero v) = 1 := by
  have hpos : 0 < length v := (length_pos_iff v).mpr h
  rw [normalizeOrZero, if_pos hpos, length_scale, abs_inv,
    abs_of_pos hpos, mul_inv_cancel₀ (ne_of_gt hpos)]

theorem length_horizontal (a : ℝ) : length (a, 0) = |a| := by
  rw [length, lengthSq]
  simp only [mul_zero, add_zero]
  exact Real.sqrt_mul_self_eq_abs a

/-- The state of the single simulated body: the `Position`, `Velocity`,
`Distance` and `PushDelay` components attached to the `CubeBaby` entity
(`src/components.rs`). -/
structure Body where
  position : Vec2
  velocity : Vec2
  distance : ℝ
  pushDelay : ℝ

/-- `i32::saturating_add_unsigned`: adding a `u32` to an `i32` saturates at
`i32::MAX`. -/
def satAddUnsigned (a : ℤ) (b : ℕ) : ℤ := min (a + b) 2147483647

/-- The properties of the current display (`DisplayProperties`,
`src/resources.rs`): the monitor's position and resolution. -/
structure DisplayProperties where
  position : ℤ × ℤ
  resolution : ℕ × ℕ

/-- `DisplayProperties::minimum_position`. -/
def DisplayProperties.minimumPosition (dp : DisplayProperties) : ℤ × ℤ :=
  dp.position

/-- `DisplayProperties::maximum_position`: the minimum position plus the
resolution, with saturating addition. -/
def DisplayProperties.maximumPosition (dp : DisplayProperties) : ℤ × ℤ :=
  (satAddUnsigned dp.minimumPosition.1 dp.resolution.1,
   satAddUnsigned dp.minimumPosition.2 dp.resolution.2)

/-- `DisplayProperties::center_position`: the minimum position plus half the
resolution (integer division), with saturating addition. -/
def DisplayProperties.centerPosition (dp : DisplayProperties) : ℤ × ℤ :=
  (satAddUnsigned dp.minimumPosition.1 (dp.resolution.1 / 2),
   satAddUnsigned dp.minimumPosition.2 (dp.resolution.2 / 2))

/-- `IVec2::as_vec2`: convert integer coordinates to float coordinates. -/
def toVec2 (p : ℤ × ℤ) : Vec2 := ((p.1 : ℝ), (p.2 : ℝ))

/-- The body's spawn position from `on_application_load_finished`:
the display's center position as a float vector minus half the window size
(broadcast subtraction of a scalar). -/
def spawnPosition (dp : DisplayProperties) : Vec2 :=
  ((toVec2 dp.centerPosition).1 - WINDOW_SIZE / 2,
   (toVec2 dp.centerPosition).2 - WINDOW_SIZE / 2)

/-- One axis of the boundary-reflection step at the head of
`update_window_movement`: clamp below to `min` forcing the velocity
non-negative, else clamp above to `max - WINDOW_SIZE` forcing it
non-positive, else leave the pair unchanged. -/
def reflectAxis (minA maxA p v : ℝ) : ℝ × ℝ :=
  if p < minA then (minA, |v|)
  else if p + WINDOW_SIZE > maxA then (maxA - WINDOW_SIZE, -|v|)
  else (p, v)

/-- The full boundary-reflection step of `update_window_movement`
(lines 281-295 of `src/main.rs`), applied to each axis independently. -/
def reflect (minP maxP : Vec2) (b : Body) : Body :=
  let rx := reflectAxis minP.1 maxP.1 b.position.1 b.velocity.1
  let ry := reflectAxis minP.2 maxP.2 b.position.2 b.velocity.2
  { b with position := (rx.1, ry.1), velocity := (rx.2, ry.2) }

/-- One tick of `update_window_movement`: boundary reflection, then
`position += velocity * dt`, then
`velocity *= clamp(1 - SLIDE_DRAG * SPRITE_SCALE * dt, 0, 1)`, then
`distance += start.distance(position)`. -/
def update_window_movement (dp : DisplayProperties) (dt : ℝ) (b : Body) :
    Body :=
  let minP := toVec2 dp.minimumPosition
  let maxP := toVec2 dp.maximumPosition
  let r := reflect minP maxP b
  let start := r.position
  let pos := r.position + scale r.velocity dt
  let vel := scale r.velocity (clampR (1 - SLIDE_DRAG * SPRITE_SCALE * dt) 0 1)
  { r with position := pos, velocity := vel,
           distance := r.distance + distance start pos }

/-- `MAX_STRENGTH` from `fixed_update_spacebar_knocking`:
`PUSH_STRENGTH * PUSH_STRENGTH * 4.0`. -/
def MAX_STRENGTH : ℝ := PUSH_STRENGTH * PUSH_STRENGTH * 4.0

/-- The impulse of one space-bar knock, given the three random samples
(each `fastrand::f32()` lies in `[0, 1)`): a direction with both axes in
`[-1, 1]` is normalized (degenerate zero collapses to zero) and scaled by
the randomized strength and by `SPRITE_SCALE`. -/
def knockImpulse (r1 r2 r3 : ℝ) : Vec2 :=
  let x := r1 * 2.0 - 1.0
  let y := r2 * 2.0 - 1.0
  let strength := ((r3 * MAX_STRENGTH) - PUSH_STRENGTH) + PUSH_STRENGTH
  scale (scale (normalizeOrZero (x, y)) strength) SPRITE_SCALE

/-- One tick of `fixed_update_spacebar_knocking`: if the space bar was just
pressed, add the knock impulse to the velocity; the system touches nothing
else of the body's state. -/
def fixed_update_spacebar_knocking (justPressed : Bool) (r1 r2 r3 : ℝ)
    (b : Body) : Body :=
  if justPressed then { b with velocity := b.velocity + knockImpulse r1 r2 r3 }
  else b

/-- One tick of `fixed_update_mouse_collision`, given the elapsed seconds and
the cursor-move positions delivered this tick in order: while the push delay
is positive it only counts the delay down; otherwise, when both a first and a
last-of-the-remainder event exist, their delta is scaled by
`PUSH_STRENGTH * SPRITE_SCALE`, renormalized to that minimum magnitude if
shorter, added to the velocity, and the push delay is reset. -/
def fixed_update_mouse_collision (dt : ℝ) (events : List Vec2) (b : Body) :
    Body :=
  if b.pushDelay > 0 then { b with pushDelay := b.pushDelay - dt }
  else
    match events.head?, events.tail.getLast? with
    | some startPos, some finalPos =>
      let delta := finalPos - startPos
      let delta := scale (scale delta PUSH_STRENGTH) SPRITE_SCALE
      let delta :=
        if length delta < PUSH_STRENGTH * SPRITE_SCALE then
          scale (normalizeOrZero delta) (PUSH_STRENGTH * SPRITE_SCALE)
        else delta
      { b with velocity := b.velocity + delta, pushDelay := PUSH_DELAY }
    | _, _ => b

/-- One call of `update_sprite_rotation` acting on the sprite's atlas index
and the accumulated slide distance: once the distance reaches
`SLIDE_SPIN_DISTANCE * SPRITE_SCALE`, advance the index modulo
`ATLAS_FRAMES` and subtract (not reset) the threshold. -/
def update_sprite_rotation (index : ℕ) (d : ℝ) : ℕ × ℝ :=
  if d ≥ SLIDE_SPIN_DISTANCE * SPRITE_SCALE then
    ((index + 1) % ATLAS_FRAMES, d - SLIDE_SPIN_DISTANCE * SPRITE_SCALE)
  else (index, d)

end

/-- A generic loading state (`GenericLoadingState`, `src/states.rs`). -/
inductive GenericLoadingState where
  | Loading
  | Finished
deriving DecidableEq, Repr

/-- `GenericLoadingState::is_loading`. -/
def GenericLoadingState.is_loading : GenericLoadingState → Bool
  | .Loading => true
  | .Finished => false

/-- `GenericLoadingState::is_finished`. -/
def GenericLoadingState.is_finished : GenericLoadingState → Bool
  | .Loading => false
  | .Finished => true

/-- The three loading-state concerns tracked by the application:
display geometry, the texture asset, and overall readiness. -/
structure LoadingStates where
  display : GenericLoadingState
  texture : GenericLoadingState
  app : GenericLoadingState
deriving DecidableEq, Repr

/-- One `Update`-schedule tick of the three loading systems
(`update_display_loading`, `update_texture_loading`,
`update_application_loading`): each system runs only while its own state
`is_loading` (the `run_if` gates in `main`), all three read the states of the
previous tick, and `NextState` assignments take effect together.
`monitorReady` is whether the monitor query succeeds this tick and
`assetLoaded` whether the asset server reports the image handle loaded. -/
def loadingTick (monitorReady assetLoaded : Bool) (s : LoadingStates) :
    LoadingStates :=
  { display :=
      if s.display.is_loading && monitorReady then .Finished else s.display,
    texture :=
      if s.texture.is_loading && assetLoaded then .Finished else s.texture,
    app :=
      if s.app.is_loading && (s.display.is_finished && s.texture.is_finished)
      then .Finished else s.app }

/-- The loading states all start as `Loading` (`GenericLoadingState::default`
via `init_state` in `main`). -/
def initialLoadingStates : LoadingStates :=
  { display := .Loading, texture := .Loading, app := .Loading }

/-- The states reachable by the loading-state step relation from startup. -/
inductive ReachableLoading : LoadingStates → Prop where
  | init : ReachableLoading initialLoadingStates
  | step {s : LoadingStates} (m a : Bool) :
      ReachableLoading s → ReachableLoading (loadingTick m a s)

/-- An image sampler (`bevy::image::ImageSampler`); the code only
distinguishes nearest-neighbour from everything else. -/
inductive ImageSampler where
  | Default
  | Nearest
deriving DecidableEq, Repr

/-- A loaded image asset: its sampler and pixel size. -/
structure Image where
  sampler : ImageSampler
  size : ℕ × ℕ
deriving DecidableEq, Repr

/-- `TextureMetadata::frame_size`: the image width is divided by
`ATLAS_FRAMES` (integer division), the height kept. -/
def frameSize (size : ℕ × ℕ) : ℕ × ℕ := (size.1 / ATLAS_FRAMES, size.2)

/-- A texture atlas layout built by `TextureAtlasLayout::from_grid`. -/
structure TextureAtlasLayout where
  tileSize : ℕ × ℕ
  columns : ℕ
  rows : ℕ
deriving DecidableEq, Repr

/-- The state touched by `update_texture_loading`: the image asset resolved
from the store (if any), the `TextureMetadata` resource's recorded size and
layout, and the texture loading state. -/
structure TextureWorld where
  image : Option Image
  metadataSize : ℕ × ℕ
  layout : Option TextureAtlasLayout
  state : GenericLoadingState
deriving DecidableEq, Repr

/-- One tick of `update_texture_loading` (lines 169-189 of `src/main.rs`).
`isLoaded` is the asset server's report for the image handle. Returns `none`
when the system panics (the `.expect` on an unresolvable image); otherwise
the updated state: the sampler forced to nearest, the metadata size recorded,
the grid layout stored, and the state set to finished. -/
def update_texture_loading (isLoaded : Bool) (w : TextureWorld) :
    Option TextureWorld :=
  if isLoaded then
    match w.image with
    | none => none
    | some img =>
      let img : Image := { img with sampler := .Nearest }
      let size := img.size
      let layout : TextureAtlasLayout :=
        { tileSize := frameSize size, columns := ATLAS_FRAMES, rows := 1 }
      some { image := some img, metadataSize := size, layout := some layout,
             state := .Finished }
  else some w

/-- The spin threshold is positive. -/
theorem spin_threshold_pos : 0 < SLIDE_SPIN_DISTANCE * SPRITE_SCALE := by
  norm_num [SLIDE_SPIN_DISTANCE, SPRITE_SCALE]

/-- C4: after `N ≥ 1` consecutive Animation Update calls starting with the
slide accumulator seeded at `threshold * N + r` with `0 ≤ r < threshold`
(threshold `SLIDE_SPIN_DISTANCE * SPRITE_SCALE`), the accumulator ends at
exactly `r` and the atlas frame index has advanced by exactly `N` modulo the
frame count, because each firing call subtracts (does not zero) the
threshold. -/
theorem slide_accumulator_drains_exactly (N : ℕ) (hN : 1 ≤ N) (r : ℝ)
    (h0 : 0 ≤ r) (hr : r < SLIDE_SPIN_DISTANCE * SPRITE_SCALE) :
    ∀ i0 : ℕ,
      (fun p : ℕ × ℝ => update_sprite_rotation p.1 p.2)^[N]
        (i0, SLIDE_SPIN_DISTANCE * SPRITE_SCALE * N + r) =
      ((i0 + N) % ATLAS_FRAMES, r) := by
  have hT := spin_threshold_pos
  induction N, hN using Nat.le_induction with
  | base =>
    intro i0
    rw [Function.iterate_one]
    simp only [update_sprite_rotation, Nat.cast_one]
    rw [if_pos (by nlinarith)]
    norm_num
  | succ n hn ih =>
    intro i0
    rw [Function.iterate_succ_apply]
    push_cast
    have hfire :
        update_sprite_rotation
          (i0, SLIDE_SPIN_DISTANCE * SPRITE_SCALE * ((n : ℝ) + 1) + r).1
          (i0, SLIDE_SPIN_DISTANCE * SPRITE_SCALE * ((n : ℝ) + 1) + r).2 =
        ((i0 + 1) % ATLAS_FRAMES,
          SLIDE_SPIN_DISTANCE * SPRITE_SCALE * (n : ℝ) + r) := by
      show update_sprite_rotation i0
          (SLIDE_SPIN_DISTANCE * SPRITE_SCALE * ((n : ℝ) + 1) + r) = _
      simp only [update_sprite_rotation]
      rw [if_pos (by nlinarith)]
      exact Prod.ext rfl (by ring)
    rw [hfire, ih ((i0 + 1) % ATLAS_FRAMES)]
    have hmod : ((i0 + 1) % ATLAS_FRAMES + n) % ATLAS_FRAMES =
        (i0 + (n + 1)) % ATLAS_FRAMES := by
      simp only [ATLAS_FRAMES]
      omega
    rw [hmod]

/-- Witness for C4 at `N = 1`, `r = 0`, starting frame index `0`. -/
theorem slide_accumulator_drains_exactly_witness :
    (fun p : ℕ × ℝ => update_sprite_rotation p.1 p.2)^[1]
      (0, SLIDE_SPIN_DISTANCE * SPRITE_SCALE * (1 : ℕ) + 0) =
    ((0 + 1) % ATLAS_FRAMES, 0) :=
  slide_accumulator_drains_exactly 1 le_rfl 0 le_rfl spin_threshold_pos 0

/-- C5: in every state reachable by the loading-state step relation, the
overall application state is `Finished` only if both the display state and
the texture state are `Finished`; moreover every tick is monotone on each of
the three states: a `Finished` state never reverts to `Loading`. -/
theorem loading_finished_only_if_parts_finished (s : LoadingStates)
    (h : ReachableLoading s) :
    (s.app = .Finished → s.display = .Finished ∧ s.texture = .Finished) ∧
    ∀ m a : Bool,
      (s.display = .Finished → (loadingTick m a s).display = .Finished) ∧
      (s.texture = .Finished → (loadingTick m a s).texture = .Finished) ∧
      (s.app = .Finished → (loadingTick m a s).app = .Finished) := by
  induction h with
  | init => decide
  | step m a hs ih =>
    rename_i s
    obtain ⟨d, t, ap⟩ := s
    revert ih
    cases d <;> cases t <;> cases ap <;> cases m <;> cases a <;> decide

/-- Witness for C5 at the reachable state obtained after two ticks in which
the monitor and the asset both resolve: the application state is `Finished`
there, and so are the display and texture states. -/
theorem loading_finished_only_if_parts_finished_witness :
    (loadingTick true true (loadingTick true true initialLoadingStates)).app =
      GenericLoadingState.Finished ∧
    (loadingTick true true
        (loadingTick true true initialLoadingStates)).display =
      GenericLoadingState.Finished ∧
    (loadingTick true true
        (loadingTick true true initialLoadingStates)).texture =
      GenericLoadingState.Finished := by
  have h := (loading_finished_only_if_parts_finished _
    (ReachableLoading.step true true
      (ReachableLoading.step true true ReachableLoading.init))).1 (by decide)
  exact ⟨by decide, h⟩

/-- C9: the texture-loading update panics exactly when the asset server
reports the handle loaded but the image cannot be resolved; when the handle
is not yet reported loaded, nothing is mutated: the image, the metadata, the
layout and the loading state are all returned unchanged. -/
theorem texture_loading_panics_iff_unresolvable (isLoaded : Bool)
    (w : TextureWorld) :
    (update_texture_loading isLoaded w = none ↔
      isLoaded = true ∧ w.image = none) ∧
    (isLoaded = false → update_texture_loading isLoaded w = some w) := by
  cases isLoaded <;> rcases w with ⟨img, ms, ly, st⟩ <;> cases img <;>
    simp [update_texture_loading]

/-- Witness for C9: with the handle not yet loaded, a concrete world is
returned unchanged. -/
theorem texture_loading_panics_iff_unresolvable_witness :
    update_texture_loading false
      ⟨none, (0, 0), none, .Loading⟩ =
    some ⟨none, (0, 0), none, .Loading⟩ :=
  (texture_loading_panics_iff_unresolvable false
    ⟨none, (0, 0), none, .Loading⟩).2 rfl

/-- Scaling by zero gives the zero vector. -/
theorem scale_zero (v : Vec2) : scale v 0 = (0, 0) := by
  simp [scale]

/-- Scaling by one is the identity. -/
theorem scale_one (v : Vec2) : scale v 1 = v := by
  simp [scale]

/-- Scaling the zero vector gives the zero vector. -/
theorem scale_zero_vec (c : ℝ) : scale (0, 0) c = (0, 0) := by
  simp [scale]

/-- Normalizing the zero vector gives the zero vector. -/
theorem normalizeOrZero_zero : normalizeOrZero (0, 0) = (0, 0) := by
  rw [normalizeOrZero, if_neg]
  rw [length_horizontal]
  norm_num

/-- The distance from a point to itself is zero. -/
theorem distance_self (p : Vec2) : distance p p = 0 := by
  simp [distance, length, lengthSq, sub_self]

/-- The drag factor at zero elapsed time is one. -/
theorem clampR_one : clampR 1 0 1 = 1 := by
  norm_num [clampR]

/-- Behaviour of one axis of the boundary-reflection step when the window
fits between the walls: below the lower wall it clamps up with a
non-negative velocity, and past the upper wall it clamps down with a
non-positive velocity. -/
theorem reflectAxis_spec (minA maxA p v : ℝ)
    (hfit : minA + WINDOW_SIZE ≤ maxA) :
    (p < minA → reflectAxis minA maxA p v = (minA, |v|)) ∧
    (p + WINDOW_SIZE > maxA →
      reflectAxis minA maxA p v = (maxA - WINDOW_SIZE, -|v|)) := by
  constructor
  · intro h
    rw [reflectAxis, if_pos h]
  · intro h
    have hnot : ¬ p < minA := by linarith
    rw [reflectAxis, if_neg hnot, if_pos h]

/-- The components of the reflection step, by definitional unfolding. -/
theorem reflect_components (minP maxP : Vec2) (b : Body) :
    (reflect minP maxP b).position =
      ((reflectAxis minP.1 maxP.1 b.position.1 b.velocity.1).1,
       (reflectAxis minP.2 maxP.2 b.position.2 b.velocity.2).1) ∧
    (reflect minP maxP b).velocity =
      ((reflectAxis minP.1 maxP.1 b.position.1 b.velocity.1).2,
       (reflectAxis minP.2 maxP.2 b.position.2 b.velocity.2).2) ∧
    (reflect minP maxP b).distance = b.distance ∧
    (reflect minP maxP b).pushDelay = b.pushDelay :=
  ⟨rfl, rfl, rfl, rfl⟩

/-- C1: the boundary-reflection step at the head of one Integrator tick acts
on each axis independently: below the lower wall the position is clamped to
the wall and the velocity on that axis forced non-negative; past the upper
wall the position is clamped to `max - WINDOW_SIZE` and the velocity forced
non-positive — so the post-clamp velocity on a touched wall points away from
that wall.  The walls are a display at least `WINDOW_SIZE` apart on each
axis. -/
theorem boundary_reflection_pushes_inward (minP maxP : Vec2) (b : Body)
    (hx : minP.1 + WINDOW_SIZE ≤ maxP.1)
    (hy : minP.2 + WINDOW_SIZE ≤ maxP.2) :
    (b.position.1 < minP.1 →
      (reflect minP maxP b).position.1 = minP.1 ∧
        0 ≤ (reflect minP maxP b).velocity.1) ∧
    (b.position.1 + WINDOW_SIZE > maxP.1 →
      (reflect minP maxP b).position.1 = maxP.1 - WINDOW_SIZE ∧
        (reflect minP maxP b).velocity.1 ≤ 0) ∧
    (b.position.2 < minP.2 →
      (reflect minP maxP b).position.2 = minP.2 ∧
        0 ≤ (reflect minP maxP b).velocity.2) ∧
    (b.position.2 + WINDOW_SIZE > maxP.2 →
      (reflect minP maxP b).position.2 = maxP.2 - WINDOW_SIZE ∧
        (reflect minP maxP b).velocity.2 ≤ 0) := by
  have hx' := reflectAxis_spec minP.1 maxP.1 b.position.1 b.velocity.1 hx
  have hy' := reflectAxis_spec minP.2 maxP.2 b.position.2 b.velocity.2 hy
  refine ⟨fun h => ?_, fun h => ?_, fun h => ?_, fun h => ?_⟩
  · constructor
    · show (reflectAxis minP.1 maxP.1 b.position.1 b.velocity.1).1 = minP.1
      rw [hx'.1 h]
    · show 0 ≤ (reflectAxis minP.1 maxP.1 b.position.1 b.velocity.1).2
      rw [hx'.1 h]
      exact abs_nonneg _
  · constructor
    · show (reflectAxis minP.1 maxP.1 b.position.1 b.velocity.1).1 =
        maxP.1 - WINDOW_SIZE
      rw [hx'.2 h]
    · show (reflectAxis minP.1 maxP.1 b.position.1 b.velocity.1).2 ≤ 0
      rw [hx'.2 h]
      exact neg_nonpos_of_nonneg (abs_nonneg _)
  · constructor
    · show (reflectAxis minP.2 maxP.2 b.position.2 b.velocity.2).1 = minP.2
      rw [hy'.1 h]
    · show 0 ≤ (reflectAxis minP.2 maxP.2 b.position.2 b.velocity.2).2
      rw [hy'.1 h]
      exact abs_nonneg _
  · constructor
    · show (reflectAxis minP.2 maxP.2 b.position.2 b.velocity.2).1 =
        maxP.2 - WINDOW_SIZE
      rw [hy'.2 h]
    · show (reflectAxis minP.2 maxP.2 b.position.2 b.velocity.2).2 ≤ 0
      rw [hy'.2 h]
      exact neg_nonpos_of_nonneg (abs_nonneg _)

/-- Witness for C1 on a 1920x1080 display at the origin, with the body past
the left wall on the x axis and past the bottom wall on the y axis. -/
theorem boundary_reflection_pushes_inward_witness :
    (reflect (0, 0) (1920, 1080)
        ⟨(-5, 1050), (3, -4), 0, 0⟩).position.1 = 0 ∧
    0 ≤ (reflect (0, 0) (1920, 1080)
        ⟨(-5, 1050), (3, -4), 0, 0⟩).velocity.1 ∧
    (reflect (0, 0) (1920, 1080)
        ⟨(-5, 1050), (3, -4), 0, 0⟩).position.2 = 1080 - WINDOW_SIZE ∧
    (reflect (0, 0) (1920, 1080)
        ⟨(-5, 1050), (3, -4), 0, 0⟩).velocity.2 ≤ 0 := by
  have h := boundary_reflection_pushes_inward (0, 0) (1920, 1080)
    ⟨(-5, 1050), (3, -4), 0, 0⟩
    (by norm_num [WINDOW_SIZE, SPRITE_SCALE])
    (by norm_num [WINDOW_SIZE, SPRITE_SCALE])
  have h1 := h.1 (by norm_num)
  have h2 := h.2.2.2 (by norm_num [WINDOW_SIZE, SPRITE_SCALE])
  exact ⟨h1.1, h1.2, h2.1, h2.2⟩

/-- When the body is in bounds on both axes, the reflection step is the
identity. -/
theorem reflect_in_bounds (minP maxP : Vec2) (b : Body)
    (hx1 : ¬ b.position.1 < minP.1)
    (hx2 : ¬ b.position.1 + WINDOW_SIZE > maxP.1)
    (hy1 : ¬ b.position.2 < minP.2)
    (hy2 : ¬ b.position.2 + WINDOW_SIZE > maxP.2) :
    reflect minP maxP b = b := by
  obtain ⟨p, v, d, c⟩ := b
  simp only [reflect, reflectAxis] at *
  rw [if_neg hx1, if_neg hx2, if_neg hy1, if_neg hy2]

/-- C6 (amended): with the body in bounds on both axes, one Integrator tick
with `dt = 0` leaves the whole body state unchanged: position, velocity, the
slide accumulator (which gains exactly zero distance) and the push delay. -/
theorem integrator_zero_dt_no_op (dp : DisplayProperties) (b : Body)
    (hx1 : ¬ b.position.1 < (toVec2 dp.minimumPosition).1)
    (hx2 : ¬ b.position.1 + WINDOW_SIZE > (toVec2 dp.maximumPosition).1)
    (hy1 : ¬ b.position.2 < (toVec2 dp.minimumPosition).2)
    (hy2 : ¬ b.position.2 + WINDOW_SIZE > (toVec2 dp.maximumPosition).2) :
    update_window_movement dp 0 b = b := by
  have hrefl := reflect_in_bounds _ _ b hx1 hx2 hy1 hy2
  show
    (let r := reflect (toVec2 dp.minimumPosition)
      (toVec2 dp.maximumPosition) b
    let pos := r.position + scale r.velocity 0
    let vel := scale r.velocity (clampR (1 - SLIDE_DRAG * SPRITE_SCALE * 0) 0 1)
    { r with position := pos, velocity := vel,
             distance := r.distance + distance r.position pos }) = b
  rw [hrefl]
  obtain ⟨p, v, d, c⟩ := b
  simp only [scale_zero]
  have hpos : p + ((0 : ℝ), (0 : ℝ)) = p := by
    exact Prod.ext (add_zero _) (add_zero _)
  rw [hpos, distance_self]
  have hfac : clampR (1 - SLIDE_DRAG * SPRITE_SCALE * 0) 0 1 = 1 := by
    norm_num [clampR]
  rw [hfac, scale_one, add_zero]

/-- Witness for C6 (amended) at an in-bounds body on a 1920x1080 display at
the origin: the tick with `dt = 0` is the identity. -/
theorem integrator_zero_dt_no_op_witness :
    update_window_movement ⟨(0, 0), (1920, 1080)⟩ 0
      ⟨(100, 100), (7, 8), 3, 2⟩ = ⟨(100, 100), (7, 8), 3, 2⟩ :=
  integrator_zero_dt_no_op ⟨(0, 0), (1920, 1080)⟩
    ⟨(100, 100), (7, 8), 3, 2⟩
    (by norm_num [toVec2, DisplayProperties.minimumPosition])
    (by norm_num [toVec2, DisplayProperties.maximumPosition,
      DisplayProperties.minimumPosition, satAddUnsigned, WINDOW_SIZE,
      SPRITE_SCALE])
    (by norm_num [toVec2, DisplayProperties.minimumPosition])
    (by norm_num [toVec2, DisplayProperties.maximumPosition,
      DisplayProperties.minimumPosition, satAddUnsigned, WINDOW_SIZE,
      SPRITE_SCALE])

/-- Counterexample to C6 as stated: for a body past the left wall of a
1920x1080 display at the origin, the tick with `dt = 0` moves the position
(the boundary clamp fires), so the claim's "for every body state" fails. -/
theorem integrator_zero_dt_counterexample :
    (update_window_movement ⟨(0, 0), (1920, 1080)⟩ 0
        ⟨(-5, 10), (0, 0), 0, 0⟩).position.1 = 0 ∧
    (⟨(-5, 10), (0, 0), 0, 0⟩ : Body).position.1 = -5 ∧
    (0 : ℝ) ≠ -5 := by
  refine ⟨?_, rfl, by norm_num⟩
  show (reflectAxis (toVec2 (DisplayProperties.minimumPosition
      ⟨(0, 0), (1920, 1080)⟩)).1
    (toVec2 (DisplayProperties.maximumPosition ⟨(0, 0), (1920, 1080)⟩)).1
    (-5) 0).1 + (reflectAxis (toVec2 (DisplayProperties.minimumPosition
      ⟨(0, 0), (1920, 1080)⟩)).1
    (toVec2 (DisplayProperties.maximumPosition ⟨(0, 0), (1920, 1080)⟩)).1
    (-5) 0).2 * 0 = 0
  rw [reflectAxis]
  norm_num [toVec2, DisplayProperties.minimumPosition]

/-- The bounds of a 1920x1080 display at the origin, as float vectors. -/
theorem scenario_bounds :
    toVec2 (DisplayProperties.minimumPosition ⟨(0, 0), (1920, 1080)⟩) =
      ((0 : ℝ), (0 : ℝ)) ∧
    toVec2 (DisplayProperties.maximumPosition ⟨(0, 0), (1920, 1080)⟩) =
      ((1920 : ℝ), (1080 : ℝ)) := by
  constructor <;>
    simp [toVec2, DisplayProperties.minimumPosition,
      DisplayProperties.maximumPosition, satAddUnsigned, Prod.ext_iff]

/-- The body's spawn position on a 1920x1080 display at the origin:
the center minus half the window size. -/
theorem spawn_position_scenario :
    spawnPosition ⟨(0, 0), (1920, 1080)⟩ = ((928 : ℝ), (508 : ℝ)) := by
  simp [spawnPosition, toVec2, DisplayProperties.centerPosition,
    DisplayProperties.minimumPosition, satAddUnsigned, WINDOW_SIZE,
    SPRITE_SCALE, Prod.ext_iff]
  norm_num

/-- Evaluation of one Integrator tick with `dt = 1` on the 1920x1080 display
at the origin for an in-bounds, rightward-moving state at height 508: the
position advances by the velocity, the velocity is halved by drag, and the
slide accumulator gains the travelled distance. -/
theorem tick_eval_horizontal (px vx d : ℝ) (h1 : ¬ px < 0)
    (h2 : ¬ px + WINDOW_SIZE > 1920) (h3 : 0 ≤ vx) :
    update_window_movement ⟨(0, 0), (1920, 1080)⟩ 1
        ⟨(px, 508), (vx, 0), d, 0⟩ =
      ⟨(px + vx, 508), (vx / 2, 0), d + vx, 0⟩ := by
  have hb := scenario_bounds
  show
    (let r := reflect
      (toVec2 (DisplayProperties.minimumPosition ⟨(0, 0), (1920, 1080)⟩))
      (toVec2 (DisplayProperties.maximumPosition ⟨(0, 0), (1920, 1080)⟩))
      ⟨(px, 508), (vx, 0), d, 0⟩
    let pos := r.position + scale r.velocity 1
    let vel := scale r.velocity (clampR (1 - SLIDE_DRAG * SPRITE_SCALE * 1) 0 1)
    { r with position := pos, velocity := vel,
             distance := r.distance + distance r.position pos }) = _
  rw [hb.1, hb.2]
  rw [reflect_in_bounds ((0 : ℝ), (0 : ℝ)) ((1920 : ℝ), (1080 : ℝ))
    ⟨(px, 508), (vx, 0), d, 0⟩ h1 h2 (by norm_num)
    (by norm_num [WINDOW_SIZE, SPRITE_SCALE])]
  have hadd : ((px, (508 : ℝ)) : Vec2) + scale (vx, 0) 1 = (px + vx, 508) := by
    simp [scale, Prod.ext_iff]
  have hfac : clampR (1 - SLIDE_DRAG * SPRITE_SCALE * 1) 0 1 = 1 / 2 := by
    norm_num [clampR, SLIDE_DRAG, SPRITE_SCALE]
  have hvel : scale ((vx, (0 : ℝ)) : Vec2) (1 / 2) = (vx / 2, 0) := by
    simp [scale, Prod.ext_iff]
    ring
  have hdist : distance ((px, (508 : ℝ)) : Vec2) (px + vx, 508) = vx := by
    rw [distance]
    have hsub : ((px, (508 : ℝ)) : Vec2) - (px + vx, 508) = (-vx, 0) := by
      simp [Prod.ext_iff]
    rw [hsub, length_horizontal, abs_neg, abs_of_nonneg h3]
  simp only [hadd, hfac, hvel, hdist]

/-- Counterexample to C7 as stated: on the scenario display, one Integrator
tick from the spawn position with velocity `(500, 0)` and `dt = 1` ends at
`x = 1428` with velocity `250` — the position is not clamped to `1856` and
the velocity is not reflected to non-positive. -/
theorem integrator_scenario_counterexample :
    (update_window_movement ⟨(0, 0), (1920, 1080)⟩ 1
        ⟨spawnPosition ⟨(0, 0), (1920, 1080)⟩, (500, 0), 0, 0⟩).position.1 =
      1428 ∧
    (update_window_movement ⟨(0, 0), (1920, 1080)⟩ 1
        ⟨spawnPosition ⟨(0, 0), (1920, 1080)⟩, (500, 0), 0, 0⟩).velocity.1 =
      250 ∧
    ¬ ((1428 : ℝ) = 1856 ∧ (250 : ℝ) ≤ 0) := by
  rw [spawn_position_scenario]
  rw [tick_eval_horizontal 928 500 0 (by norm_num)
    (by norm_num [WINDOW_SIZE, SPRITE_SCALE]) (by norm_num)]
  norm_num

/-- C7 (amended): on the scenario display, one Integrator tick from the
spawn position with velocity `(500, 0)` and `dt = 1` first finds the body in
bounds (the boundary check is a no-op), then moves the position 500 px right
to `x = 1428` and drags the velocity to `250`; no clamp occurs this tick
since `1428 + WINDOW_SIZE ≤ 1920`.  The clamp to `max.x - WINDOW_SIZE =
1856` with the velocity reflected non-positive happens in the boundary phase
of the fifth tick (three further ticks, then the reflection step). -/
theorem integrator_scenario_amended :
    update_window_movement ⟨(0, 0), (1920, 1080)⟩ 1
        ⟨spawnPosition ⟨(0, 0), (1920, 1080)⟩, (500, 0), 0, 0⟩ =
      ⟨(1428, 508), (250, 0), 500, 0⟩ ∧
    ¬ (1428 : ℝ) + WINDOW_SIZE > 1920 ∧
    (reflect (0, 0) (1920, 1080)
        (update_window_movement ⟨(0, 0), (1920, 1080)⟩ 1
          (update_window_movement ⟨(0, 0), (1920, 1080)⟩ 1
            (update_window_movement ⟨(0, 0), (1920, 1080)⟩ 1
              ⟨(1428, 508), (250, 0), 500, 0⟩)))).position.1 = 1856 ∧
    (reflect (0, 0) (1920, 1080)
        (update_window_movement ⟨(0, 0), (1920, 1080)⟩ 1
          (update_window_movement ⟨(0, 0), (1920, 1080)⟩ 1
            (update_window_movement ⟨(0, 0), (1920, 1080)⟩ 1
              ⟨(1428, 508), (250, 0), 500, 0⟩)))).velocity.1 ≤ 0 := by
  have t2 : update_window_movement ⟨(0, 0), (1920, 1080)⟩ 1
      ⟨(1428, 508), (250, 0), 500, 0⟩ = ⟨(1678, 508), (125, 0), 750, 0⟩ := by
    rw [tick_eval_horizontal 1428 250 500 (by norm_num)
      (by norm_num [WINDOW_SIZE, SPRITE_SCALE]) (by norm_num)]
    norm_num [Body.mk.injEq, Prod.ext_iff]
  have t3 : update_window_movement ⟨(0, 0), (1920, 1080)⟩ 1
      ⟨(1678, 508), (125, 0), 750, 0⟩ = ⟨(1803, 508), (62.5, 0), 875, 0⟩ := by
    rw [tick_eval_horizontal 1678 125 750 (by norm_num)
      (by norm_num [WINDOW_SIZE, SPRITE_SCALE]) (by norm_num)]
    norm_num [Body.mk.injEq, Prod.ext_iff]
  have t4 : update_window_movement ⟨(0, 0), (1920, 1080)⟩ 1
      ⟨(1803, 508), (62.5, 0), 875, 0⟩ =
      ⟨(1865.5, 508), (31.25, 0), 937.5, 0⟩ := by
    rw [tick_eval_horizontal 1803 62.5 875 (by norm_num)
      (by norm_num [WINDOW_SIZE, SPRITE_SCALE]) (by norm_num)]
    norm_num [Body.mk.injEq, Prod.ext_iff]
  refine ⟨?_, by norm_num [WINDOW_SIZE, SPRITE_SCALE], ?_, ?_⟩
  · rw [spawn_position_scenario]
    rw [tick_eval_horizontal 928 500 0 (by norm_num)
      (by norm_num [WINDOW_SIZE, SPRITE_SCALE]) (by norm_num)]
    norm_num [Body.mk.injEq, Prod.ext_iff]
  · rw [t2, t3, t4]
    show (reflectAxis 0 1920 1865.5 31.25).1 = 1856
    rw [reflectAxis, if_neg (by norm_num),
      if_pos (by norm_num [WINDOW_SIZE, SPRITE_SCALE])]
    norm_num [WINDOW_SIZE, SPRITE_SCALE]
  · rw [t2, t3, t4]
    show (reflectAxis 0 1920 1865.5 31.25).2 ≤ 0
    rw [reflectAxis, if_neg (by norm_num),
      if_pos (by norm_num [WINDOW_SIZE, SPRITE_SCALE])]
    exact neg_nonpos_of_nonneg (abs_nonneg _)

/-- The length of a knock impulse factors into the length of the normalized
direction, the strength and the sprite scale. -/
theorem knock_length (r1 r2 r3 : ℝ) :
    length (knockImpulse r1 r2 r3) =
      length (normalizeOrZero (r1 * 2.0 - 1.0, r2 * 2.0 - 1.0)) *
        |((r3 * MAX_STRENGTH) - PUSH_STRENGTH) + PUSH_STRENGTH| *
        |SPRITE_SCALE| := by
  show length (scale (scale (normalizeOrZero (r1 * 2.0 - 1.0, r2 * 2.0 - 1.0))
    (((r3 * MAX_STRENGTH) - PUSH_STRENGTH) + PUSH_STRENGTH)) SPRITE_SCALE) = _
  rw [length_scale, length_scale]

/-- Counterexample to C2 as stated: with random samples `(3/4, 1/2, 1/2)`
the impulse has magnitude `1024`, far above the claimed bound
`2 * PUSH_STRENGTH * SPRITE_SCALE`, and with samples `(3/4, 1/2, 0)` the
impulse is zero although the random direction vector is not zero. -/
theorem knock_strength_counterexample :
    length (knockImpulse (3 / 4) (1 / 2) (1 / 2)) = 1024 ∧
    2 * PUSH_STRENGTH * SPRITE_SCALE < 1024 ∧
    knockImpulse (3 / 4) (1 / 2) 0 = ((0 : ℝ), (0 : ℝ)) ∧
    ((3 / 4 : ℝ) * 2.0 - 1.0, (1 / 2 : ℝ) * 2.0 - 1.0) ≠
      ((0 : ℝ), (0 : ℝ)) := by
  have hd : ((3 / 4 : ℝ) * 2.0 - 1.0, (1 / 2 : ℝ) * 2.0 - 1.0) ≠
      ((0 : ℝ), (0 : ℝ)) := by
    simp [Prod.ext_iff]
    norm_num
  refine ⟨?_, by norm_num [PUSH_STRENGTH, SPRITE_SCALE], ?_, hd⟩
  · rw [knock_length (3 / 4) (1 / 2) (1 / 2),
      length_normalizeOrZero _ hd, one_mul,
      abs_of_nonneg (by norm_num [MAX_STRENGTH, PUSH_STRENGTH] :
        (0 : ℝ) ≤ (((1 / 2 : ℝ) * MAX_STRENGTH) - PUSH_STRENGTH) +
          PUSH_STRENGTH),
      abs_of_nonneg (by norm_num [SPRITE_SCALE] : (0 : ℝ) ≤ SPRITE_SCALE)]
    norm_num [MAX_STRENGTH, PUSH_STRENGTH, SPRITE_SCALE]
  · show scale (scale
      (normalizeOrZero ((3 / 4 : ℝ) * 2.0 - 1.0, (1 / 2 : ℝ) * 2.0 - 1.0))
      ((((0 : ℝ) * MAX_STRENGTH) - PUSH_STRENGTH) + PUSH_STRENGTH))
      SPRITE_SCALE = ((0 : ℝ), (0 : ℝ))
    rw [show (((0 : ℝ) * MAX_STRENGTH) - PUSH_STRENGTH) + PUSH_STRENGTH = 0
        by ring, scale_zero, scale_zero_vec]

/-- C2 (amended): for every direction pair and every strength sample
`r3 ∈ [0, 1)`, the knock impulse is the normalized random direction scaled
by the strength `(r3 * MAX_STRENGTH - PUSH_STRENGTH) + PUSH_STRENGTH`, which
lies in `[0, 4 * PUSH_STRENGTH^2)`, further scaled by the sprite scale: for
a non-degenerate direction the impulse magnitude is exactly that strength
times the sprite scale, and the impulse is zero precisely when the random
direction vector is zero or the strength sample is zero. -/
theorem knock_impulse_amended (r1 r2 r3 : ℝ) (h0 : 0 ≤ r3) (h1 : r3 < 1) :
    (0 ≤ ((r3 * MAX_STRENGTH) - PUSH_STRENGTH) + PUSH_STRENGTH ∧
      ((r3 * MAX_STRENGTH) - PUSH_STRENGTH) + PUSH_STRENGTH <
        4 * PUSH_STRENGTH ^ 2) ∧
    ((r1 * 2.0 - 1.0, r2 * 2.0 - 1.0) ≠ ((0 : ℝ), (0 : ℝ)) →
      length (knockImpulse r1 r2 r3) =
        (((r3 * MAX_STRENGTH) - PUSH_STRENGTH) + PUSH_STRENGTH) *
          SPRITE_SCALE) ∧
    (knockImpulse r1 r2 r3 = ((0 : ℝ), (0 : ℝ)) ↔
      (r1 * 2.0 - 1.0, r2 * 2.0 - 1.0) = ((0 : ℝ), (0 : ℝ)) ∨
        ((r3 * MAX_STRENGTH) - PUSH_STRENGTH) + PUSH_STRENGTH = 0) := by
  have hseq : ((r3 * MAX_STRENGTH) - PUSH_STRENGTH) + PUSH_STRENGTH =
      r3 * 1024 := by
    unfold MAX_STRENGTH PUSH_STRENGTH
    ring
  have hs0 : 0 ≤ ((r3 * MAX_STRENGTH) - PUSH_STRENGTH) + PUSH_STRENGTH := by
    rw [hseq]
    positivity
  have hlen : ∀ hd : (r1 * 2.0 - 1.0, r2 * 2.0 - 1.0) ≠ ((0 : ℝ), (0 : ℝ)),
      length (knockImpulse r1 r2 r3) =
        (((r3 * MAX_STRENGTH) - PUSH_STRENGTH) + PUSH_STRENGTH) *
          SPRITE_SCALE := by
    intro hd
    rw [knock_length, length_normalizeOrZero _ hd, one_mul,
      abs_of_nonneg hs0,
      abs_of_nonneg (by norm_num [SPRITE_SCALE] : (0 : ℝ) ≤ SPRITE_SCALE)]
  refine ⟨⟨hs0, ?_⟩, hlen, ?_, ?_⟩
  · rw [hseq]
    norm_num [PUSH_STRENGTH]
    nlinarith [h1]
  · intro h
    by_cases hd : (r1 * 2.0 - 1.0, r2 * 2.0 - 1.0) = ((0 : ℝ), (0 : ℝ))
    · exact Or.inl hd
    · refine Or.inr ?_
      by_contra hs
      have hpos : 0 < ((r3 * MAX_STRENGTH) - PUSH_STRENGTH) + PUSH_STRENGTH :=
        lt_of_le_of_ne hs0 (Ne.symm hs)
      have hlz : length (knockImpulse r1 r2 r3) = 0 := by
        rw [h]
        rw [show ((0 : ℝ), (0 : ℝ)) = ((0 : ℝ), (0 : ℝ)) from rfl,
          length_horizontal]
        norm_num
      rw [hlen hd] at hlz
      have : (0 : ℝ) < SPRITE_SCALE := by norm_num [SPRITE_SCALE]
      nlinarith
  · intro h
    rcases h with hd | hs
    · show scale (scale
        (normalizeOrZero (r1 * 2.0 - 1.0, r2 * 2.0 - 1.0))
        (((r3 * MAX_STRENGTH) - PUSH_STRENGTH) + PUSH_STRENGTH))
        SPRITE_SCALE = ((0 : ℝ), (0 : ℝ))
      rw [hd, normalizeOrZero_zero, scale_zero_vec, scale_zero_vec]
    · show scale (scale
        (normalizeOrZero (r1 * 2.0 - 1.0, r2 * 2.0 - 1.0))
        (((r3 * MAX_STRENGTH) - PUSH_STRENGTH) + PUSH_STRENGTH))
        SPRITE_SCALE = ((0 : ℝ), (0 : ℝ))
      rw [hs, scale_zero, scale_zero_vec]

/-- Witness for C2 (amended) at the samples `(3/4, 1/2, 1/2)`. -/
theorem knock_impulse_amended_witness :
    (0 ≤ (((1 / 2 : ℝ) * MAX_STRENGTH) - PUSH_STRENGTH) + PUSH_STRENGTH) ∧
    length (knockImpulse (3 / 4) (1 / 2) (1 / 2)) =
      ((((1 / 2 : ℝ) * MAX_STRENGTH) - PUSH_STRENGTH) + PUSH_STRENGTH) *
        SPRITE_SCALE := by
  have h := knock_impulse_amended (3 / 4) (1 / 2) (1 / 2)
    (by norm_num) (by norm_num)
  exact ⟨h.1.1, h.2.1 (by simp [Prod.ext_iff]; norm_num)⟩

/-- C10: the keyboard-knock handler touches only the velocity: for every
body state — in particular whatever the push cooldown is — a space-bar press
adds the knock impulse to the velocity and leaves the push delay, the
position and the slide accumulator unchanged; without a press nothing
changes. -/
theorem spacebar_knock_only_velocity (justPressed : Bool) (r1 r2 r3 : ℝ)
    (b : Body) :
    (fixed_update_spacebar_knocking justPressed r1 r2 r3 b).pushDelay =
      b.pushDelay ∧
    (fixed_update_spacebar_knocking justPressed r1 r2 r3 b).position =
      b.position ∧
    (fixed_update_spacebar_knocking justPressed r1 r2 r3 b).distance =
      b.distance ∧
    (justPressed = true →
      (fixed_update_spacebar_knocking justPressed r1 r2 r3 b).velocity =
        b.velocity + knockImpulse r1 r2 r3) ∧
    (justPressed = false →
      fixed_update_spacebar_knocking justPressed r1 r2 r3 b = b) := by
  cases justPressed <;> simp [fixed_update_spacebar_knocking]

/-- Witness for C10 at a body whose push cooldown is strictly positive: the
knock still adds its impulse and leaves the cooldown alone. -/
theorem spacebar_knock_only_velocity_witness :
    (fixed_update_spacebar_knocking true 0 0 0
        ⟨(0, 0), (0, 0), 0, 1⟩).pushDelay = 1 ∧
    (fixed_update_spacebar_knocking true 0 0 0
        ⟨(0, 0), (0, 0), 0, 1⟩).velocity =
      ((0 : ℝ), (0 : ℝ)) + knockImpulse 0 0 0 := by
  have h := spacebar_knock_only_velocity true 0 0 0 ⟨(0, 0), (0, 0), 0, 1⟩
  exact ⟨h.1, h.2.2.2.1 rfl⟩

/-- The zero vector has zero length. -/
theorem length_zero_vec : length ((0 : ℝ), (0 : ℝ)) = 0 := by
  rw [length_horizontal]
  exact abs_zero

/-- Scaling a nonzero vector by a nonzero scalar stays nonzero. -/
theorem scale_ne_zero (v : Vec2) (c : ℝ) (hv : v ≠ ((0 : ℝ), (0 : ℝ)))
    (hc : c ≠ 0) : scale v c ≠ ((0 : ℝ), (0 : ℝ)) := by
  intro h
  apply hv
  rw [scale, Prod.mk.injEq] at h
  exact Prod.ext ((mul_eq_zero.mp h.1).resolve_right hc)
    ((mul_eq_zero.mp h.2).resolve_right hc)

/-- Projecting the velocity change out of a body updated by an impulse. -/
theorem body_with_velocity_sub (b : Body) (d : Vec2) (c : ℝ) :
    ({ b with velocity := b.velocity + d, pushDelay := c } : Body).velocity -
      b.velocity = d := by
  show b.velocity + d - b.velocity = d
  exact add_sub_cancel_left _ _

/-- Reduction of the cursor-drag handler when the cooldown has elapsed and a
first and a last-of-the-remainder cursor event exist. -/
theorem mouse_eval_some (dt : ℝ) (events : List Vec2) (b : Body)
    (hcd : ¬ b.pushDelay > 0) (s f : Vec2)
    (hs : events.head? = some s) (hf : events.tail.getLast? = some f) :
    fixed_update_mouse_collision dt events b =
      { b with
        velocity := b.velocity +
          (if length (scale (scale (f - s) PUSH_STRENGTH) SPRITE_SCALE) <
              PUSH_STRENGTH * SPRITE_SCALE then
            scale (normalizeOrZero (scale (scale (f - s) PUSH_STRENGTH)
              SPRITE_SCALE)) (PUSH_STRENGTH * SPRITE_SCALE)
          else scale (scale (f - s) PUSH_STRENGTH) SPRITE_SCALE),
        pushDelay := PUSH_DELAY } := by
  simp only [fixed_update_mouse_collision, if_neg hcd, hs, hf]

/-- C3 (amended): on a tick of the cursor-drag handler whose cooldown has
elapsed, fewer than two cursor events leave the body untouched; with at
least two events, the impulse added to the velocity has magnitude at least
`PUSH_STRENGTH * SPRITE_SCALE` whenever the first and last positions differ,
and is exactly zero in the degenerate case where they coincide. -/
theorem mouse_impulse_amended (dt : ℝ) (events : List Vec2) (b : Body)
    (hcd : ¬ b.pushDelay > 0) :
    (events.length < 2 → fixed_update_mouse_collision dt events b = b) ∧
    (2 ≤ events.length →
      ∃ s f : Vec2, events.head? = some s ∧ events.tail.getLast? = some f ∧
        (s ≠ f → PUSH_STRENGTH * SPRITE_SCALE ≤
          length ((fixed_update_mouse_collision dt events b).velocity -
            b.velocity)) ∧
        (s = f → (fixed_update_mouse_collision dt events b).velocity =
          b.velocity)) := by
  constructor
  · intro hlen
    rcases events with _ | ⟨e0, _ | ⟨e1, rest⟩⟩
    · simp [fixed_update_mouse_collision, if_neg hcd]
    · simp [fixed_update_mouse_collision, if_neg hcd]
    · simp only [List.length_cons] at hlen
      omega
  · intro hlen
    rcases events with _ | ⟨e0, rest⟩
    · simp at hlen
    rcases rest with _ | ⟨e1, rest'⟩
    · simp at hlen
    obtain ⟨f, hf⟩ : ∃ f, (e1 :: rest').getLast? = some f := by
      cases hg : (e1 :: rest').getLast? with
      | none =>
        rw [List.getLast?_eq_none_iff] at hg
        exact absurd hg (by simp)
      | some f => exact ⟨f, rfl⟩
    refine ⟨e0, f, rfl, hf, ?_, ?_⟩
    · intro hsf
      have hd0 : f - e0 ≠ ((0 : ℝ), (0 : ℝ)) := by
        intro h
        apply hsf
        have h1 : f.1 - e0.1 = 0 := congrArg Prod.fst h
        have h2 : f.2 - e0.2 = 0 := congrArg Prod.snd h
        exact Prod.ext (by linarith) (by linarith)
      have hscaled : scale (scale (f - e0) PUSH_STRENGTH) SPRITE_SCALE ≠
          ((0 : ℝ), (0 : ℝ)) :=
        scale_ne_zero _ _
          (scale_ne_zero _ _ hd0 (by norm_num [PUSH_STRENGTH]))
          (by norm_num [SPRITE_SCALE])
      rw [mouse_eval_some dt (e0 :: e1 :: rest') b hcd e0 f rfl hf,
        body_with_velocity_sub]
      by_cases hlt : length (scale (scale (f - e0) PUSH_STRENGTH)
          SPRITE_SCALE) < PUSH_STRENGTH * SPRITE_SCALE
      · rw [if_pos hlt, length_scale, length_normalizeOrZero _ hscaled,
          one_mul, abs_of_nonneg
            (by norm_num [PUSH_STRENGTH, SPRITE_SCALE] :
              (0 : ℝ) ≤ PUSH_STRENGTH * SPRITE_SCALE)]
      · rw [if_neg hlt]
        exact le_of_not_lt hlt
    · intro hsf
      subst hsf
      rw [mouse_eval_some dt (e0 :: e1 :: rest') b hcd e0 e0 rfl hf]
      have hzero : e0 - e0 = ((0 : ℝ), (0 : ℝ)) :=
        Prod.ext (sub_self _) (sub_self _)
      have hcond : length ((0 : ℝ), (0 : ℝ)) <
          PUSH_STRENGTH * SPRITE_SCALE := by
        rw [length_zero_vec]
        norm_num [PUSH_STRENGTH, SPRITE_SCALE]
      show b.velocity + _ = b.velocity
      rw [hzero, scale_zero_vec, scale_zero_vec, if_pos hcond,
        normalizeOrZero_zero, scale_zero_vec]
      exact Prod.ext (add_zero _) (add_zero _)

/-- Witness for C3 (amended) with no cursor events and zero cooldown. -/
theorem mouse_impulse_amended_witness :
    fixed_update_mouse_collision 0 [] ⟨(0, 0), (0, 0), 0, 0⟩ =
      ⟨(0, 0), (0, 0), 0, 0⟩ :=
  (mouse_impulse_amended 0 [] ⟨(0, 0), (0, 0), 0, 0⟩
    (by norm_num : ¬ (0 : ℝ) > 0)).1 (by simp)

/-- Counterexample to C3 as stated: with the cooldown elapsed and two cursor
events at the same position `(100, 100)`, the handler adds a zero impulse —
its magnitude is not at least `PUSH_STRENGTH * SPRITE_SCALE`. -/
theorem mouse_impulse_counterexample :
    length ((fixed_update_mouse_collision 0
        [((100 : ℝ), (100 : ℝ)), ((100 : ℝ), (100 : ℝ))]
        ⟨(0, 0), (0, 0), 0, 0⟩).velocity -
      (⟨(0, 0), (0, 0), 0, 0⟩ : Body).velocity) = 0 ∧
    ¬ PUSH_STRENGTH * SPRITE_SCALE ≤ (0 : ℝ) := by
  constructor
  · rw [mouse_eval_some 0
      [((100 : ℝ), (100 : ℝ)), ((100 : ℝ), (100 : ℝ))]
      ⟨(0, 0), (0, 0), 0, 0⟩ (by norm_num : ¬ (0 : ℝ) > 0)
      ((100 : ℝ), (100 : ℝ)) ((100 : ℝ), (100 : ℝ)) rfl rfl,
      body_with_velocity_sub]
    have hzero : (((100 : ℝ), (100 : ℝ)) : Vec2) - ((100 : ℝ), (100 : ℝ)) =
        ((0 : ℝ), (0 : ℝ)) := Prod.ext (sub_self _) (sub_self _)
    have hcond : length ((0 : ℝ), (0 : ℝ)) <
        PUSH_STRENGTH * SPRITE_SCALE := by
      rw [length_zero_vec]
      norm_num [PUSH_STRENGTH, SPRITE_SCALE]
    rw [hzero, scale_zero_vec, scale_zero_vec, if_pos hcond,
      normalizeOrZero_zero, scale_zero_vec, length_zero_vec]
  · norm_num [PUSH_STRENGTH, SPRITE_SCALE]

/-- The scaled cursor delta of the C8 scenario evaluates to `(320, 0)`. -/
theorem scenario_delta_eval :
    scale (scale ((((110 : ℝ), (100 : ℝ)) : Vec2) - ((100 : ℝ), (100 : ℝ)))
      PUSH_STRENGTH) SPRITE_SCALE = ((320 : ℝ), (0 : ℝ)) := by
  simp [scale, Prod.ext_iff, PUSH_STRENGTH, SPRITE_SCALE]
  norm_num

/-- The length of the vector `(320, 0)` is `320`. -/
theorem scenario_delta_length : length ((320 : ℝ), (0 : ℝ)) = 320 := by
  rw [length_horizontal, abs_of_nonneg (by norm_num : (0 : ℝ) ≤ 320)]

/-- Counterexample to C8 as stated: with the cooldown elapsed and the two
cursor events `(100, 100)` then `(110, 100)` in one tick, the impulse added
to the velocity has magnitude `320`, not exactly
`PUSH_STRENGTH * SPRITE_SCALE = 32`. -/
theorem mouse_scenario_counterexample :
    length ((fixed_update_mouse_collision 0
        [((100 : ℝ), (100 : ℝ)), ((110 : ℝ), (100 : ℝ))]
        ⟨(0, 0), (0, 0), 0, 0⟩).velocity -
      (⟨(0, 0), (0, 0), 0, 0⟩ : Body).velocity) = 320 ∧
    PUSH_STRENGTH * SPRITE_SCALE ≠ (320 : ℝ) := by
  constructor
  · rw [mouse_eval_some 0
      [((100 : ℝ), (100 : ℝ)), ((110 : ℝ), (100 : ℝ))]
      ⟨(0, 0), (0, 0), 0, 0⟩ (by norm_num : ¬ (0 : ℝ) > 0)
      ((100 : ℝ), (100 : ℝ)) ((110 : ℝ), (100 : ℝ)) rfl rfl,
      body_with_velocity_sub, scenario_delta_eval, scenario_delta_length,
      if_neg (by norm_num [PUSH_STRENGTH, SPRITE_SCALE]),
      scenario_delta_length]
  · norm_num [PUSH_STRENGTH, SPRITE_SCALE]

/-- C8 (amended): in the scenario with the cooldown elapsed and the two
cursor events `(100, 100)` then `(110, 100)` in one tick, the scaled delta
`(320, 0)` is not below the minimum threshold, so no renormalization occurs:
the impulse added to the velocity is exactly `(320, 0)` — direction `(1, 0)`
and magnitude `10 * PUSH_STRENGTH * SPRITE_SCALE = 320` — and the cooldown
is reset to `PUSH_DELAY`. -/
theorem mouse_scenario_amended :
    (fixed_update_mouse_collision 0
        [((100 : ℝ), (100 : ℝ)), ((110 : ℝ), (100 : ℝ))]
        ⟨(0, 0), (0, 0), 0, 0⟩).velocity -
      (⟨(0, 0), (0, 0), 0, 0⟩ : Body).velocity = ((320 : ℝ), (0 : ℝ)) ∧
    (fixed_update_mouse_collision 0
        [((100 : ℝ), (100 : ℝ)), ((110 : ℝ), (100 : ℝ))]
        ⟨(0, 0), (0, 0), 0, 0⟩).pushDelay = PUSH_DELAY ∧
    normalizeOrZero ((320 : ℝ), (0 : ℝ)) = ((1 : ℝ), (0 : ℝ)) ∧
    length ((320 : ℝ), (0 : ℝ)) = 10 * (PUSH_STRENGTH * SPRITE_SCALE) ∧
    ¬ length (scale (scale ((((110 : ℝ), (100 : ℝ)) : Vec2) -
        ((100 : ℝ), (100 : ℝ))) PUSH_STRENGTH) SPRITE_SCALE) <
      PUSH_STRENGTH * SPRITE_SCALE := by
  have heval := mouse_eval_some 0
    [((100 : ℝ), (100 : ℝ)), ((110 : ℝ), (100 : ℝ))]
    ⟨(0, 0), (0, 0), 0, 0⟩ (by norm_num : ¬ (0 : ℝ) > 0)
    ((100 : ℝ), (100 : ℝ)) ((110 : ℝ), (100 : ℝ)) rfl rfl
  refine ⟨?_, ?_, ?_, ?_, ?_⟩
  · rw [heval, body_with_velocity_sub, scenario_delta_eval,
      scenario_delta_length,
      if_neg (by norm_num [PUSH_STRENGTH, SPRITE_SCALE])]
  · rw [heval]
  · rw [normalizeOrZero, scenario_delta_length, if_pos (by norm_num)]
    simp [scale, Prod.ext_iff]
  · rw [scenario_delta_length]
    norm_num [PUSH_STRENGTH, SPRITE_SCALE]
  · rw [scenario_delta_eval, scenario_delta_length]
    norm_num [PUSH_STRENGTH, SPRITE_SCALE]

end CubeBaby
